import Mathlib

/-!
# LwESP examples: HTTP server snippet and access-point demo

A shallow embedding of `snippets/http_server.c` and
`examples/win32/access_point_rtos/main.c`.

* C strings are Lean strings: the characters before the terminating NUL.
* `printf` and the library's `lwesp_http_server_write_string` are observed
  through the list of strings they were given, oldest first.
* Function pointers are symbols (`FnPtr`); `cgi_call` resolves the symbols
  of the CGI handlers to their bodies.
* `uint32_t` and `size_t` values are natural numbers, reduced modulo `2^32`
  where the C arithmetic wraps.
-/

namespace LwESP

/-! ## C library -/

/-- Character of a C string at the head of a character list; the end of the
list is the terminating NUL. -/
def cstr_head (s : List Char) : Nat :=
  match s with
  | [] => 0
  | c :: _ => c.toNat

/-- The C library `strncmp` on character lists: compares at most `n`
characters, stops at the first difference or at a NUL, and returns the
difference of the two characters (as unsigned char) where they differ. -/
def strncmp_chars : List Char → List Char → Nat → Int
  | _, _, 0 => 0
  | s1, s2, n + 1 =>
    if cstr_head s1 ≠ cstr_head s2 then (cstr_head s1 : Int) - (cstr_head s2 : Int)
    else if cstr_head s1 = 0 then 0
    else strncmp_chars s1.tail s2.tail n

/-- The C library `strncmp` on C strings. -/
def strncmp (s1 s2 : String) (n : Nat) : Int :=
  strncmp_chars s1.toList s2.toList n

/-! ## Types of the HTTP server application layer -/

/-- One URI parameter, `http_param_t`. -/
structure http_param_t where
  name : String
  value : String
deriving DecidableEq, Repr

/-- The functions whose address the snippet stores in a table or structure. -/
inductive FnPtr where
  | led_cgi_handler
  | usart_cgi_handler
  | http_ssi_cb
  | http_post_start_cb
  | http_post_data_cb
  | http_post_end_cb
  | http_fs_open
  | http_fs_read
  | http_fs_close
deriving DecidableEq, Repr

/-- One entry of a CGI table, `http_cgi_t`: a path and its handler. -/
structure http_cgi_t where
  uri : String
  fn : FnPtr
deriving DecidableEq, Repr

/-- The structure `http_init_t` handed to the HTTP server; a member that is
not initialised is a null pointer (`none`). -/
structure http_init_t where
  post_start_fn : Option FnPtr
  post_data_fn : Option FnPtr
  post_end_fn : Option FnPtr
  cgi : List http_cgi_t
  cgi_count : Nat
  ssi_fn : Option FnPtr
  fs_open : Option FnPtr
  fs_read : Option FnPtr
  fs_close : Option FnPtr
deriving DecidableEq, Repr

/-- The HTTP state `http_state_t`, observed through the strings written to it
with `lwesp_http_server_write_string`, oldest first. -/
abbrev http_state_t := List String

/-- The library call `lwesp_http_server_write_string(hs, str)`. -/
def lwesp_http_server_write_string (hs : http_state_t) (str : String) : http_state_t :=
  hs ++ [str]

/-! ## CGI handlers -/

/-- The line `printf("Param: name = %s, value = %s\r\n", ...)` prints. -/
def param_line (p : http_param_t) : String :=
  "Param: name = " ++ p.name ++ ", value = " ++ p.value ++ "\r\n"

/-- The loop `while (params_len--) { printf(...); params++; }` of both CGI
handlers: `params` is the array the pointer ranges over, `out` what has been
printed. Reading past the end of the array has no defined result (`none`). -/
def cgi_param_loop : List http_param_t → Nat → List String → Option (List String)
  | _, 0, out => some out
  | [], _ + 1, _ => none
  | p :: ps, n + 1, out => cgi_param_loop ps n (out ++ [param_line p])

/-- The handler `led_cgi_handler(params, params_len)`: what it prints and the
URI it returns. -/
def led_cgi_handler (params : List http_param_t) (params_len : Nat) :
    Option (List String × String) :=
  match cgi_param_loop params params_len ["LED CGI HANDLER\r\n"] with
  | none => none
  | some out => some (out, "/index.shtml")

/-- The handler `usart_cgi_handler(params, params_len)`: what it prints and
the URI it returns. -/
def usart_cgi_handler (params : List http_param_t) (params_len : Nat) :
    Option (List String × String) :=
  match cgi_param_loop params params_len ["USART CGI HANDLER!\r\n"] with
  | none => none
  | some out => some (out, "/index.html")

/-- Calling a CGI handler through its pointer; a pointer to a function of
another type is not callable as a CGI handler. -/
def cgi_call (f : FnPtr) (params : List http_param_t) (params_len : Nat) :
    Option (List String × String) :=
  match f with
  | FnPtr.led_cgi_handler => led_cgi_handler params params_len
  | FnPtr.usart_cgi_handler => usart_cgi_handler params params_len
  | _ => none

/-! ## SSI callback -/

/-- What one call of `http_ssi_cb` leaves behind: the static counter `cnt`,
the HTTP state, and the returned value. -/
structure SsiResult where
  cnt : Nat
  hs : http_state_t
  ret : Nat
deriving DecidableEq, Repr

/-- The callback `http_ssi_cb(hs, tag_name, tag_len)`; `cnt` is the value of
its static `uint32_t cnt` on entry. -/
def http_ssi_cb (cnt : Nat) (hs : http_state_t) (tag_name : String) (tag_len : Nat) :
    SsiResult :=
  let cnt := (cnt + 1) % 2 ^ 32
  if strncmp tag_name "title" tag_len = 0 then
    let hs := lwesp_http_server_write_string hs "ESP8266 SSI TITLE"
    { cnt := cnt, hs := hs, ret := cnt % 3 }
  else if strncmp tag_name "led_status" tag_len = 0 then
    let hs := lwesp_http_server_write_string hs "Led is on"
    { cnt := cnt, hs := hs, ret := 1 }
  else if strncmp tag_name "wifi_list" tag_len = 0 then
    let hs := lwesp_http_server_write_string hs "<table class=\"table\">"
    let hs := lwesp_http_server_write_string hs
      "<thead><tr><th>#</th><th>SSID</th><th>MAC</th><th>RSSI</th></tr></thead><tbody>"
    let hs := lwesp_http_server_write_string hs "</tbody></table>"
    { cnt := cnt, hs := hs, ret := 1 }
  else
    { cnt := cnt, hs := hs, ret := 1 }

/-- One invocation of the SSI callback as the server makes it. -/
structure SsiCall where
  hs : http_state_t
  tag_name : String
  tag_len : Nat
deriving DecidableEq, Repr

/-- The static counter after a history of invocations, starting from `cnt`. -/
def ssi_cnt_after (cnt : Nat) : List SsiCall → Nat
  | [] => cnt
  | c :: cs => ssi_cnt_after (http_ssi_cb cnt c.hs c.tag_name c.tag_len).cnt cs

/-- The values a history of invocations returns, starting from `cnt`. -/
def ssi_returns (cnt : Nat) : List SsiCall → List Nat
  | [] => []
  | c :: cs =>
    (http_ssi_cb cnt c.hs c.tag_name c.tag_len).ret ::
      ssi_returns (http_ssi_cb cnt c.hs c.tag_name c.tag_len).cnt cs

/-- Zero-initialised static `cnt`. -/
def ssi_cnt_init : Nat := 0

/-! ## CGI table and init structure -/

/-- Modelled from the spec: the macro `LWESP_ARRAYSIZE` of the library header
is not among the sources; it gives the number of entries of the table an
application registers. -/
def LWESP_ARRAYSIZE {α : Type} (x : List α) : Nat := x.length

/-- The table `cgi_handlers`. -/
def cgi_handlers : List http_cgi_t :=
  [ { uri := "/led.cgi", fn := FnPtr.led_cgi_handler },
    { uri := "/usart.cgi", fn := FnPtr.usart_cgi_handler } ]

/-- The preprocessor switches the snippet is compiled under. -/
structure BuildConfig where
  HTTP_SUPPORT_POST : Bool
  WIN32 : Bool
deriving DecidableEq, Repr

/-- The structure `http_init`. -/
def http_init (cfg : BuildConfig) : http_init_t :=
  { post_start_fn := if cfg.HTTP_SUPPORT_POST then some FnPtr.http_post_start_cb else none
    post_data_fn := if cfg.HTTP_SUPPORT_POST then some FnPtr.http_post_data_cb else none
    post_end_fn := if cfg.HTTP_SUPPORT_POST then some FnPtr.http_post_end_cb else none
    cgi := cgi_handlers
    cgi_count := LWESP_ARRAYSIZE cgi_handlers
    ssi_fn := some FnPtr.http_ssi_cb
    fs_open := if cfg.WIN32 then some FnPtr.http_fs_open else none
    fs_read := if cfg.WIN32 then some FnPtr.http_fs_read else none
    fs_close := if cfg.WIN32 then some FnPtr.http_fs_close else none }

/-! ## Starting the server -/

/-- Result type `lwespr_t` of the library: a C enumeration. -/
abbrev lwespr_t := Nat

/-- What `http_server_start` does to the outside, in order. -/
inductive Action where
  | printf (s : String)
  | lwesp_http_server_init (init : http_init_t) (port : Nat)
deriving DecidableEq, Repr

/-- Whether an action is a call of `lwesp_http_server_init`. -/
def Action.is_init_call : Action → Bool
  | Action.lwesp_http_server_init _ _ => true
  | Action.printf _ => false

/-- The function `http_server_start`. The enumerator `lwespOK` and the library
function `lwesp_http_server_init` (here `server_init`, giving the status of a
call) are declared outside the sources and taken as parameters. Gives the
actions performed and the returned status. -/
def http_server_start (cfg : BuildConfig) (lwespOK : lwespr_t)
    (server_init : http_init_t → Nat → lwespr_t) : List Action × lwespr_t :=
  let out := [Action.printf "Starting HTTP server on port 80...\r\n"]
  let res := server_init (http_init cfg) 80
  let out := out ++ [Action.lwesp_http_server_init (http_init cfg) 80]
  if res = lwespOK then
    (out ++ [Action.printf "HTTP server ready!\r\n"], res)
  else
    (out ++ [Action.printf "Cannot start HTTP server\r\n"], res)

/-! ## Event callback of the access-point demo -/

/-- Firmware version `lwesp_sw_version_t`. -/
structure lwesp_sw_version_t where
  major : Nat
  minor : Nat
  patch : Nat
deriving DecidableEq, Repr

/-- The declarations of `lwesp/lwesp.h` and `utils.h` that `main.c` uses and
that are not among the sources, taken as parameters: the status `lwespOK`,
the event-type enumerators, the event accessors, the version getters and the
two print helpers (each gives the text it prints). -/
structure LwespLib (lwesp_evt_t lwesp_mac_t lwesp_ip_t : Type) where
  lwespOK : lwespr_t
  LWESP_EVT_AT_VERSION_NOT_SUPPORTED : Nat
  LWESP_EVT_INIT_FINISH : Nat
  LWESP_EVT_RESET_DETECTED : Nat
  LWESP_EVT_AP_CONNECTED_STA : Nat
  LWESP_EVT_AP_IP_STA : Nat
  LWESP_EVT_AP_DISCONNECTED_STA : Nat
  lwesp_evt_get_type : lwesp_evt_t → Nat
  lwesp_get_min_at_fw_version : lwesp_sw_version_t
  lwesp_get_current_at_fw_version : lwesp_sw_version_t
  lwesp_evt_ap_connected_sta_get_mac : lwesp_evt_t → lwesp_mac_t
  lwesp_evt_ap_ip_sta_get_mac : lwesp_evt_t → lwesp_mac_t
  lwesp_evt_ap_ip_sta_get_ip : lwesp_evt_t → lwesp_ip_t
  lwesp_evt_ap_disconnected_sta_get_mac : lwesp_evt_t → lwesp_mac_t
  utils_print_mac : Option String → lwesp_mac_t → String → List String
  utils_print_ip : Option String → lwesp_ip_t → String → List String

/-- The text of `printf("...%d.%d.%d\r\n", major, minor, patch)` after the
given lead. -/
def version_line (lead : String) (v : lwesp_sw_version_t) : String :=
  lead ++ toString v.major ++ "." ++ toString v.minor ++ "." ++ toString v.patch ++ "\r\n"

/-- The callback `lwesp_callback_func(evt)`: what it prints and the status it
returns. The `switch` is taken case by case in the order of the source. -/
def lwesp_callback_func {lwesp_evt_t lwesp_mac_t lwesp_ip_t : Type}
    (L : LwespLib lwesp_evt_t lwesp_mac_t lwesp_ip_t) (evt : lwesp_evt_t) :
    List String × lwespr_t :=
  let ty := L.lwesp_evt_get_type evt
  let out : List String :=
    if ty = L.LWESP_EVT_AT_VERSION_NOT_SUPPORTED then
      let v_min := L.lwesp_get_min_at_fw_version
      let v_curr := L.lwesp_get_current_at_fw_version
      [ "Current ESP8266 AT version is not supported by library!\r\n",
        version_line "Minimum required AT version is: " v_min,
        version_line "Current AT version is: " v_curr ]
    else if ty = L.LWESP_EVT_INIT_FINISH then
      ["Library initialized!\r\n"]
    else if ty = L.LWESP_EVT_RESET_DETECTED then
      ["Device reset detected!\r\n"]
    else if ty = L.LWESP_EVT_AP_CONNECTED_STA then
      let mac := L.lwesp_evt_ap_connected_sta_get_mac evt
      L.utils_print_mac (some "New station connected to access point with MAC address: ")
        mac "\r\n"
    else if ty = L.LWESP_EVT_AP_IP_STA then
      let mac := L.lwesp_evt_ap_ip_sta_get_mac evt
      let ip := L.lwesp_evt_ap_ip_sta_get_ip evt
      L.utils_print_ip (some "IP ") ip " assigned to station with MAC address: " ++
        L.utils_print_mac none mac "\r\n"
    else if ty = L.LWESP_EVT_AP_DISCONNECTED_STA then
      let mac := L.lwesp_evt_ap_disconnected_sta_get_mac evt
      L.utils_print_mac (some "Station disconnected from access point with MAC address: ")
        mac "\r\n"
    else
      []
  (out, L.lwespOK)

/-! ## AT frame parsing (design level)

The transport engine is not among the sources; the definitions of this and
the next section follow section 4 of the specification. -/

/-- A byte of the transport stream. -/
abbrev Byte := Nat

/-- Carriage return. -/
def CR : Byte := 13

/-- Line feed. -/
def LF : Byte := 10

/-- Modelled from the spec: the frames the AT Frame Parser produces, which is
not among the sources: "(a) plain text line terminated by CRLF, (b) binary
payload frames introduced by a declared byte count, (c) prompt markers
requiring an immediate response", and the reported parse error. -/
inductive Frame where
  | line (text : List Byte)
  | binary (header : List Byte) (payload : List Byte)
  | prompt_marker (marker : List Byte)
  | parse_error (rejected : List Byte)
deriving DecidableEq, Repr

/-- Modelled from the spec: how the bytes read since the last frame boundary
are classified by the vendor grammar, which the spec treats as "configuration
data supplied externally": no header yet, a header declaring a byte count, or
a malformed length. -/
inductive HeaderClass where
  | not_header
  | declares (count : Nat)
  | malformed
deriving DecidableEq, Repr

/-- Modelled from the spec: the vendor-defined part of the AT grammar, which
is not among the sources: which byte sequences are prompt markers, which
introduce a binary payload and with what declared count, and the largest
count accepted ("malformed/oversized length"). -/
structure Grammar where
  is_prompt_marker : List Byte → Bool
  binary_header : List Byte → HeaderClass
  max_payload : Nat

/-- Modelled from the spec: the state the AT Frame Parser keeps between
invocations ("state persists between invocations"), the parser not being
among the sources: the partial text line, the partial binary payload with
the number of bytes still to buffer, or resynchronisation after a parse
error (with whether the last byte was a carriage return). -/
inductive ParserState where
  | in_line (buf : List Byte)
  | in_binary (header : List Byte) (remaining : Nat) (buf : List Byte)
  | resync (after_cr : Bool)
deriving DecidableEq, Repr

/-- Modelled from the spec: the state of the AT Frame Parser before any byte
was read; the parser is not among the sources. -/
def parser_init : ParserState := ParserState.in_line []

/-- Modelled from the spec: the AT Frame Parser, which is not among the
sources, consuming one byte. A text line ends at CRLF; a prompt marker is a
frame as soon as it is complete; a header with a declared count makes the
parser "buffer exactly that many bytes regardless of embedded control
characters"; a "malformed/oversized length" is reported as a parse error and
the parser "resynchronizes at the next line boundary". -/
def parser_step (g : Grammar) (st : ParserState) (b : Byte) : ParserState × List Frame :=
  match st with
  | ParserState.in_line buf =>
    if b = LF ∧ buf.getLast? = some CR then
      (ParserState.in_line [], [Frame.line buf.dropLast])
    else if g.is_prompt_marker (buf ++ [b]) then
      (ParserState.in_line [], [Frame.prompt_marker (buf ++ [b])])
    else
      match g.binary_header (buf ++ [b]) with
      | HeaderClass.not_header => (ParserState.in_line (buf ++ [b]), [])
      | HeaderClass.malformed =>
        (ParserState.resync (b = CR), [Frame.parse_error (buf ++ [b])])
      | HeaderClass.declares n =>
        if g.max_payload < n then
          (ParserState.resync (b = CR), [Frame.parse_error (buf ++ [b])])
        else if n = 0 then
          (ParserState.in_line [], [Frame.binary (buf ++ [b]) []])
        else
          (ParserState.in_binary (buf ++ [b]) n [], [])
  | ParserState.in_binary header remaining buf =>
    if remaining ≤ 1 then
      (ParserState.in_line [], [Frame.binary header (buf ++ [b])])
    else
      (ParserState.in_binary header (remaining - 1) (buf ++ [b]), [])
  | ParserState.resync after_cr =>
    if after_cr = true ∧ b = LF then
      (ParserState.in_line [], [])
    else
      (ParserState.resync (b = CR), [])

/-- Modelled from the spec: one invocation of the AT Frame Parser (not among
the sources) on the bytes of one I/O read: the state it leaves and the frames
it completed, in order. -/
def parser_feed (g : Grammar) : ParserState → List Byte → ParserState × List Frame
  | st, [] => (st, [])
  | st, b :: bs =>
    ((parser_feed g (parser_step g st b).1 bs).1,
      (parser_step g st b).2 ++ (parser_feed g (parser_step g st b).1 bs).2)

/-- Modelled from the spec: the AT Frame Parser (not among the sources)
invoked once per chunk of a stream read in several I/O operations, the state
carried from one invocation to the next. -/
def parser_feed_chunks (g : Grammar) : ParserState → List (List Byte) → ParserState × List Frame
  | st, [] => (st, [])
  | st, c :: cs =>
    ((parser_feed_chunks g (parser_feed g st c).1 cs).1,
      (parser_feed g st c).2 ++ (parser_feed_chunks g (parser_feed g st c).1 cs).2)

/-! ## Command dispatcher (design level) -/

/-- Modelled from the spec: a Command of the dispatcher, which is not among
the sources: "opcode/text, expected response pattern(s), timeout"; the
patterns are the success and the failure tokens. -/
structure Command where
  text : List Byte
  success_tokens : List (List Byte)
  failure_tokens : List (List Byte)
  timeout : Nat
deriving DecidableEq, Repr

/-- Modelled from the spec: how a Command of the dispatcher (not among the
sources) ends: resolved with status OK, rejected by the modem, timed out, or
refused at submission because another Command was pending. -/
inductive Outcome where
  | ok
  | command_rejected
  | command_timeout
  | busy
deriving DecidableEq, Repr

/-- Modelled from the spec: what the dispatcher (not among the sources) does
with a Command submitted while another is pending: the spec allows to "queue
or reject it". -/
inductive BusyPolicy where
  | queue
  | reject
deriving DecidableEq, Repr

/-- Modelled from the spec: the state of the Command Dispatcher, which is not
among the sources: the Commands written to the transport and not yet resolved
(oldest first), the Commands waiting, everything written to the transport,
the outcomes reported so far, the lines echoed to the diagnostic sink, and
the binary data routed to connections. -/
structure Dispatcher where
  in_flight : List Command
  waiting : List Command
  wire : List (List Byte)
  outcomes : List (Command × Outcome)
  diagnostic : List (List Byte)
  routed : List (Nat × List Byte)
deriving DecidableEq, Repr

/-- Modelled from the spec: the Command Dispatcher (not among the sources)
before any Command was submitted. -/
def dispatcher_init : Dispatcher :=
  { in_flight := [], waiting := [], wire := [], outcomes := [], diagnostic := [], routed := [] }

/-- Modelled from the spec: the dispatcher (not among the sources) taking the
next waiting Command once it is free: the Command is written to the transport
and becomes the pending one. -/
def dispatcher_start_next (d : Dispatcher) : Dispatcher :=
  match d.in_flight, d.waiting with
  | [], c :: rest => { d with in_flight := [c], waiting := rest, wire := d.wire ++ [c.text] }
  | _, _ => d

/-- Modelled from the spec: the operation `submit(command)` of the dispatcher
(not among the sources). A free dispatcher writes the Command to the
transport; with a Command pending the new one is queued or rejected, by
policy. -/
def dispatcher_submit (policy : BusyPolicy) (d : Dispatcher) (c : Command) : Dispatcher :=
  match d.in_flight with
  | [] => { d with in_flight := [c], wire := d.wire ++ [c.text] }
  | _ :: _ =>
    match policy with
    | BusyPolicy.queue => { d with waiting := d.waiting ++ [c] }
    | BusyPolicy.reject => { d with outcomes := d.outcomes ++ [(c, Outcome.busy)] }

/-- Modelled from the spec: the operation `on_line(text)` of the dispatcher
(not among the sources): the line is matched "against the pending command's
success/failure tokens"; a line that matches neither is "discarded after
being echoed to a diagnostic sink". Resolving frees the dispatcher for the
next Command. -/
def dispatcher_on_line (d : Dispatcher) (text : List Byte) : Dispatcher :=
  match d.in_flight with
  | [] => { d with diagnostic := d.diagnostic ++ [text] }
  | c :: rest =>
    if text ∈ c.success_tokens then
      dispatcher_start_next
        { d with in_flight := rest, outcomes := d.outcomes ++ [(c, Outcome.ok)] }
    else if text ∈ c.failure_tokens then
      dispatcher_start_next
        { d with in_flight := rest, outcomes := d.outcomes ++ [(c, Outcome.command_rejected)] }
    else
      { d with diagnostic := d.diagnostic ++ [text] }

/-- Modelled from the spec: the operation `on_binary(connection_id, bytes)`
of the dispatcher (not among the sources), "routed independently of command
state". -/
def dispatcher_on_binary (d : Dispatcher) (connection_id : Nat) (bytes : List Byte) :
    Dispatcher :=
  { d with routed := d.routed ++ [(connection_id, bytes)] }

/-- Modelled from the spec: expiry of the pending Command's deadline in the
dispatcher (not among the sources): it "cancels the command with a timeout
error and frees the dispatcher for the next command". -/
def dispatcher_on_timeout (d : Dispatcher) : Dispatcher :=
  match d.in_flight with
  | [] => d
  | c :: rest =>
    dispatcher_start_next
      { d with in_flight := rest, outcomes := d.outcomes ++ [(c, Outcome.command_timeout)] }

/-- Modelled from the spec: what can happen to the dispatcher (not among the
sources): a submission, a parsed line, parsed binary data, a deadline
expiring. -/
inductive DispatcherInput where
  | submit (c : Command)
  | line (text : List Byte)
  | binary (connection_id : Nat) (bytes : List Byte)
  | deadline
deriving DecidableEq, Repr

/-- Modelled from the spec: one step of the dispatcher (not among the
sources). -/
def dispatcher_step (policy : BusyPolicy) (d : Dispatcher) : DispatcherInput → Dispatcher
  | DispatcherInput.submit c => dispatcher_submit policy d c
  | DispatcherInput.line text => dispatcher_on_line d text
  | DispatcherInput.binary connection_id bytes => dispatcher_on_binary d connection_id bytes
  | DispatcherInput.deadline => dispatcher_on_timeout d

/-- Modelled from the spec: the dispatcher (not among the sources) after a
sequence of inputs; its values from `dispatcher_init` are the reachable
states. -/
def dispatcher_run (policy : BusyPolicy) (d : Dispatcher) (inputs : List DispatcherInput) :
    Dispatcher :=
  inputs.foldl (dispatcher_step policy) d

/-- Modelled from the spec: whether an outcome of the dispatcher (not among
the sources) resolves a Command that was written to the transport, which a
refusal at submission does not. -/
def Outcome.is_resolution : Outcome → Bool
  | Outcome.ok => true
  | Outcome.command_rejected => true
  | Outcome.command_timeout => true
  | Outcome.busy => false

/-- Modelled from the spec: the number of Commands the dispatcher (not among
the sources) has resolved after writing them to the transport: the outcomes
other than a refusal at submission. -/
def dispatcher_resolved (d : Dispatcher) : Nat :=
  (d.outcomes.filter (fun o => o.2.is_resolution)).length

/-- Modelled from the spec: a Command of the dispatcher (not among the
sources) that is answered by the status line `OK` or `ERROR`, as in the
spec's scenario for `ap_set_config`. -/
def status_command (text : List Byte) (timeout : Nat) : Command :=
  { text := text
    success_tokens := [[79, 75]]
    failure_tokens := [[69, 82, 82, 79, 82]]
    timeout := timeout }

/-! ## Lemmas -/

theorem cgi_param_loop_eq (params : List http_param_t) (params_len : Nat) (out : List String)
    (h : params_len ≤ params.length) :
    cgi_param_loop params params_len out =
      some (out ++ (params.take params_len).map param_line) := by
  induction params generalizing params_len out with
  | nil =>
    have h0 : params_len = 0 := by simpa using h
    subst h0
    simp [cgi_param_loop]
  | cons p ps ih =>
    cases params_len with
    | zero => simp [cgi_param_loop]
    | succ n =>
      have hn : n ≤ ps.length := by simpa using h
      simp [cgi_param_loop, ih n _ hn]

theorem http_ssi_cb_cnt (cnt : Nat) (hs : http_state_t) (tag_name : String) (tag_len : Nat) :
    (http_ssi_cb cnt hs tag_name tag_len).cnt = (cnt + 1) % 2 ^ 32 := by
  unfold http_ssi_cb
  split_ifs <;> rfl

theorem http_ssi_cb_ret (cnt : Nat) (hs : http_state_t) (tag_name : String) (tag_len : Nat) :
    (http_ssi_cb cnt hs tag_name tag_len).ret =
      if strncmp tag_name "title" tag_len = 0 then ((cnt + 1) % 2 ^ 32) % 3 else 1 := by
  unfold http_ssi_cb
  split_ifs <;> rfl

theorem ssi_cnt_after_mod (cnt : Nat) (history : List SsiCall) :
    ssi_cnt_after (cnt % 2 ^ 32) history = (cnt + history.length) % 2 ^ 32 := by
  induction history generalizing cnt with
  | nil => simp [ssi_cnt_after]
  | cons c cs ih =>
    have h1 : (cnt % 2 ^ 32 + 1) % 2 ^ 32 = (cnt + 1) % 2 ^ 32 := by omega
    simp only [ssi_cnt_after, http_ssi_cb_cnt, h1, ih, List.length_cons]
    congr 1
    omega

theorem ssi_cnt_after_init (history : List SsiCall) :
    ssi_cnt_after ssi_cnt_init history = history.length % 2 ^ 32 := by
  have h := ssi_cnt_after_mod 0 history
  simpa [ssi_cnt_init] using h

theorem parser_feed_append (g : Grammar) (st : ParserState) (xs ys : List Byte) :
    parser_feed g st (xs ++ ys) =
      ((parser_feed g (parser_feed g st xs).1 ys).1,
        (parser_feed g st xs).2 ++ (parser_feed g (parser_feed g st xs).1 ys).2) := by
  induction xs generalizing st with
  | nil => simp [parser_feed]
  | cons x xs ih => simp [parser_feed, ih, List.append_assoc]

theorem dispatcher_start_next_in_flight (d : Dispatcher) (h : d.in_flight.length ≤ 1) :
    (dispatcher_start_next d).in_flight.length ≤ 1 := by
  unfold dispatcher_start_next
  split
  · simp
  · exact h

theorem dispatcher_step_in_flight (policy : BusyPolicy) (d : Dispatcher) (i : DispatcherInput)
    (h : d.in_flight.length ≤ 1) : (dispatcher_step policy d i).in_flight.length ≤ 1 := by
  cases i with
  | submit c =>
    simp only [dispatcher_step, dispatcher_submit]
    split
    · simp
    · cases policy <;> exact h
  | line text =>
    simp only [dispatcher_step, dispatcher_on_line]
    split
    · exact h
    · rename_i c rest hd
      have hrest : rest.length ≤ 1 := by
        rw [hd] at h
        simp only [List.length_cons] at h
        omega
      split_ifs
      · exact dispatcher_start_next_in_flight _ hrest
      · exact dispatcher_start_next_in_flight _ hrest
      · exact h
  | binary connection_id bytes =>
    simpa [dispatcher_step, dispatcher_on_binary] using h
  | deadline =>
    simp only [dispatcher_step, dispatcher_on_timeout]
    split
    · exact h
    · rename_i c rest hd
      have hrest : rest.length ≤ 1 := by
        rw [hd] at h
        simp only [List.length_cons] at h
        omega
      exact dispatcher_start_next_in_flight _ hrest

theorem dispatcher_run_in_flight (policy : BusyPolicy) (d : Dispatcher)
    (inputs : List DispatcherInput) (h : d.in_flight.length ≤ 1) :
    (dispatcher_run policy d inputs).in_flight.length ≤ 1 := by
  induction inputs generalizing d with
  | nil => simpa [dispatcher_run] using h
  | cons i is ih =>
    simp only [dispatcher_run, List.foldl_cons]
    exact ih _ (dispatcher_step_in_flight policy d i h)

theorem resolved_length_append (os : List (Command × Outcome)) (c : Command) (o : Outcome)
    (h : o.is_resolution = true) :
    ((os ++ [(c, o)]).filter (fun o => o.2.is_resolution)).length =
      (os.filter (fun o => o.2.is_resolution)).length + 1 := by
  simp [List.filter_append, List.filter_cons, h]

theorem busy_length_append (os : List (Command × Outcome)) (c : Command) :
    ((os ++ [(c, Outcome.busy)]).filter (fun o => o.2.is_resolution)).length =
      (os.filter (fun o => o.2.is_resolution)).length := by
  have h : Outcome.is_resolution Outcome.busy = false := rfl
  simp [List.filter_append, List.filter_cons, h]

theorem dispatcher_start_next_wire (d : Dispatcher)
    (h : d.wire.length = dispatcher_resolved d + d.in_flight.length) :
    (dispatcher_start_next d).wire.length =
      dispatcher_resolved (dispatcher_start_next d) + (dispatcher_start_next d).in_flight.length := by
  unfold dispatcher_start_next
  split
  · rename_i c rest h1 h2
    simp only [dispatcher_resolved, h1, List.length_nil] at h
    simp only [dispatcher_resolved, List.length_append, List.length_cons, List.length_nil, h]
  · exact h

theorem dispatcher_step_wire (policy : BusyPolicy) (d : Dispatcher) (i : DispatcherInput)
    (h : d.wire.length = dispatcher_resolved d + d.in_flight.length) :
    (dispatcher_step policy d i).wire.length =
      dispatcher_resolved (dispatcher_step policy d i) +
        (dispatcher_step policy d i).in_flight.length := by
  cases i with
  | submit c =>
    simp only [dispatcher_step, dispatcher_submit]
    split
    · rename_i h1
      simp only [dispatcher_resolved, h1, List.length_nil] at h
      simp only [dispatcher_resolved, List.length_append, List.length_cons, List.length_nil, h]
    · cases policy
      · exact h
      · simp only [dispatcher_resolved] at h ⊢
        rw [busy_length_append]
        exact h
  | line text =>
    simp only [dispatcher_step, dispatcher_on_line]
    split
    · exact h
    · rename_i c rest hd
      simp only [dispatcher_resolved, hd, List.length_cons] at h
      split_ifs
      · apply dispatcher_start_next_wire
        simp only [dispatcher_resolved]
        rw [resolved_length_append d.outcomes c Outcome.ok rfl]
        omega
      · apply dispatcher_start_next_wire
        simp only [dispatcher_resolved]
        rw [resolved_length_append d.outcomes c Outcome.command_rejected rfl]
        omega
      · simpa [dispatcher_resolved, hd] using h
  | binary connection_id bytes =>
    simpa [dispatcher_step, dispatcher_on_binary, dispatcher_resolved] using h
  | deadline =>
    simp only [dispatcher_step, dispatcher_on_timeout]
    split
    · exact h
    · rename_i c rest hd
      simp only [dispatcher_resolved, hd, List.length_cons] at h
      apply dispatcher_start_next_wire
      simp only [dispatcher_resolved]
      rw [resolved_length_append d.outcomes c Outcome.command_timeout rfl]
      omega

theorem dispatcher_run_wire (policy : BusyPolicy) (d : Dispatcher)
    (inputs : List DispatcherInput)
    (h : d.wire.length = dispatcher_resolved d + d.in_flight.length) :
    (dispatcher_run policy d inputs).wire.length =
      dispatcher_resolved (dispatcher_run policy d inputs) +
        (dispatcher_run policy d inputs).in_flight.length := by
  induction inputs generalizing d with
  | nil => simpa [dispatcher_run] using h
  | cons i is ih =>
    simp only [dispatcher_run, List.foldl_cons]
    exact ih _ (dispatcher_step_wire policy d i h)

/-! ## The claims -/

/-- C1: for every parameter array and every `params_len` within it,
`led_cgi_handler` returns the path "/index.shtml" and `usart_cgi_handler`
the path "/index.html", after printing its banner and one line for each of
the first `params_len` parameters; the returned path is the same for all
parameters. -/
theorem cgi_handlers_return_redirect (params : List http_param_t) (params_len : Nat)
    (h : params_len ≤ params.length) :
    led_cgi_handler params params_len =
        some ("LED CGI HANDLER\r\n" :: (params.take params_len).map param_line,
          "/index.shtml") ∧
      usart_cgi_handler params params_len =
        some ("USART CGI HANDLER!\r\n" :: (params.take params_len).map param_line,
          "/index.html") := by
  constructor
  · simp [led_cgi_handler, cgi_param_loop_eq params params_len _ h]
  · simp [usart_cgi_handler, cgi_param_loop_eq params params_len _ h]

/-- Witness of C1: two parameters, both read. -/
theorem cgi_handlers_return_redirect_witness :
    led_cgi_handler [{ name := "led", value := "1" }, { name := "x", value := "" }] 2 =
        some ("LED CGI HANDLER\r\n" ::
          (([{ name := "led", value := "1" }, { name := "x", value := "" }] :
            List http_param_t).take 2).map param_line, "/index.shtml") ∧
      usart_cgi_handler [{ name := "led", value := "1" }, { name := "x", value := "" }] 2 =
        some ("USART CGI HANDLER!\r\n" ::
          (([{ name := "led", value := "1" }, { name := "x", value := "" }] :
            List http_param_t).take 2).map param_line, "/index.html") :=
  cgi_handlers_return_redirect
    [{ name := "led", value := "1" }, { name := "x", value := "" }] 2 (by decide)

/-- C2: the second invocation of `http_ssi_cb`, for the tag "title" of length
5, returns 2, a value that is neither 1 nor 0. -/
theorem http_ssi_cb_returns_two :
    ssi_returns ssi_cnt_init
      [{ hs := [], tag_name := "title", tag_len := 5 },
       { hs := [], tag_name := "title", tag_len := 5 }] = [1, 2] := by
  decide

/-- C8: `http_ssi_cb` keeps one counter for all tags. It starts at 0; after
any history of invocations it holds the number of invocations modulo 2^32,
and the next invocation, the k-th overall, sets it to k modulo 2^32 whatever
the tag; that invocation returns (k mod 2^32) mod 3 when the tag matches
"title" and 1 when it does not, as for "led_status" and "wifi_list". -/
theorem http_ssi_cb_shared_counter (history : List SsiCall) (hs : http_state_t)
    (tag_name : String) (tag_len : Nat) :
    ssi_cnt_init = 0 ∧
      ssi_cnt_after ssi_cnt_init history = history.length % 2 ^ 32 ∧
      (http_ssi_cb (ssi_cnt_after ssi_cnt_init history) hs tag_name tag_len).cnt =
        (history.length + 1) % 2 ^ 32 ∧
      (http_ssi_cb (ssi_cnt_after ssi_cnt_init history) hs tag_name tag_len).ret =
        (if strncmp tag_name "title" tag_len = 0 then ((history.length + 1) % 2 ^ 32) % 3
          else 1) ∧
      (http_ssi_cb (ssi_cnt_after ssi_cnt_init history) hs "led_status" 10).ret = 1 ∧
      (http_ssi_cb (ssi_cnt_after ssi_cnt_init history) hs "wifi_list" 9).ret = 1 := by
  have hmod : (history.length % 2 ^ 32 + 1) % 2 ^ 32 = (history.length + 1) % 2 ^ 32 := by
    omega
  have hled : strncmp "led_status" "title" 10 ≠ 0 := by decide
  have hwifi : strncmp "wifi_list" "title" 9 ≠ 0 := by decide
  refine ⟨rfl, ssi_cnt_after_init history, ?_, ?_, ?_, ?_⟩
  · rw [http_ssi_cb_cnt, ssi_cnt_after_init, hmod]
  · rw [http_ssi_cb_ret, ssi_cnt_after_init, hmod]
  · rw [http_ssi_cb_ret, if_neg hled]
  · rw [http_ssi_cb_ret, if_neg hwifi]

/-- C9: for the tag "t" of length 1, a proper beginning of "title", and for
the empty tag of length 0, `http_ssi_cb` writes "ESP8266 SSI TITLE"; for the
tag "l" of length 1 it writes "Led is on". -/
theorem http_ssi_cb_writes_for_partial_tag :
    (http_ssi_cb ssi_cnt_init [] "t" 1).hs = ["ESP8266 SSI TITLE"] ∧
      (http_ssi_cb ssi_cnt_init [] "" 0).hs = ["ESP8266 SSI TITLE"] ∧
      (http_ssi_cb ssi_cnt_init [] "l" 1).hs = ["Led is on"] := by
  decide

/-- C3: `http_server_start` announces the start, calls
`lwesp_http_server_init` once, with `http_init` and port 80, prints
"HTTP server ready!" when that call gave `lwespOK` and "Cannot start HTTP
server" otherwise, and returns the status the call gave; so it returns
`lwespOK` exactly when the initialisation succeeded. -/
theorem http_server_start_returns_init_status (cfg : BuildConfig) (lwespOK : lwespr_t)
    (server_init : http_init_t → Nat → lwespr_t) :
    (http_server_start cfg lwespOK server_init).2 = server_init (http_init cfg) 80 ∧
      (http_server_start cfg lwespOK server_init).1 =
        [ Action.printf "Starting HTTP server on port 80...\r\n",
          Action.lwesp_http_server_init (http_init cfg) 80,
          Action.printf
            (if server_init (http_init cfg) 80 = lwespOK then "HTTP server ready!\r\n"
              else "Cannot start HTTP server\r\n") ] ∧
      (http_server_start cfg lwespOK server_init).1.filter Action.is_init_call =
        [Action.lwesp_http_server_init (http_init cfg) 80] ∧
      ((http_server_start cfg lwespOK server_init).2 = lwespOK ↔
        server_init (http_init cfg) 80 = lwespOK) ∧
      (Action.printf "HTTP server ready!\r\n" ∈ (http_server_start cfg lwespOK server_init).1 ↔
        server_init (http_init cfg) 80 = lwespOK) ∧
      (Action.printf "Cannot start HTTP server\r\n" ∈
          (http_server_start cfg lwespOK server_init).1 ↔
        server_init (http_init cfg) 80 ≠ lwespOK) := by
  unfold http_server_start
  by_cases h : server_init (http_init cfg) 80 = lwespOK
  · simp [h, Action.is_init_call]
  · simp [h, Action.is_init_call]

/-- C4: whatever the type of the event, one of the six handled types or any
other, `lwesp_callback_func` returns `lwespOK`. -/
theorem lwesp_callback_func_returns_ok {lwesp_evt_t lwesp_mac_t lwesp_ip_t : Type}
    (L : LwespLib lwesp_evt_t lwesp_mac_t lwesp_ip_t) (evt : lwesp_evt_t) :
    (lwesp_callback_func L evt).2 = L.lwespOK := by
  rfl

/-- C5: `http_init` registers the table `cgi_handlers` with its number of
entries, 2, as `cgi_count`; the paths of the table are pairwise distinct; the
one entry for "/led.cgi" has the handler `led_cgi_handler` and the one entry
for "/usart.cgi" the handler `usart_cgi_handler`, and these pointers call the
two handlers; `ssi_fn` is `http_ssi_cb`. -/
theorem http_init_cgi_table (cfg : BuildConfig) :
    (http_init cfg).cgi = cgi_handlers ∧
      (http_init cfg).cgi_count = cgi_handlers.length ∧
      (http_init cfg).cgi_count = 2 ∧
      (cgi_handlers.map http_cgi_t.uri).Nodup ∧
      ((http_init cfg).cgi.take (http_init cfg).cgi_count).filter
          (fun e => e.uri = "/led.cgi") =
        [{ uri := "/led.cgi", fn := FnPtr.led_cgi_handler }] ∧
      ((http_init cfg).cgi.take (http_init cfg).cgi_count).filter
          (fun e => e.uri = "/usart.cgi") =
        [{ uri := "/usart.cgi", fn := FnPtr.usart_cgi_handler }] ∧
      cgi_call FnPtr.led_cgi_handler = led_cgi_handler ∧
      cgi_call FnPtr.usart_cgi_handler = usart_cgi_handler ∧
      (http_init cfg).ssi_fn = some FnPtr.http_ssi_cb := by
  have hled : (cgi_handlers.take 2).filter (fun e => e.uri = "/led.cgi") =
      [{ uri := "/led.cgi", fn := FnPtr.led_cgi_handler }] := by decide
  have husart : (cgi_handlers.take 2).filter (fun e => e.uri = "/usart.cgi") =
      [{ uri := "/usart.cgi", fn := FnPtr.usart_cgi_handler }] := by decide
  exact ⟨rfl, rfl, rfl, by decide, hled, husart, rfl, rfl, rfl⟩

/-- C6: for every vendor grammar, every parser state and every way of
cutting a byte stream into consecutive chunks, invoking the parser once per
chunk leaves the same state and produces the same frames, in the same order,
as one invocation on the whole stream. -/
theorem parser_chunk_boundary_invariance (g : Grammar) (st : ParserState)
    (chunks : List (List Byte)) :
    parser_feed_chunks g st chunks = parser_feed g st chunks.flatten := by
  induction chunks generalizing st with
  | nil => simp [parser_feed_chunks, parser_feed]
  | cons c cs ih => simp [parser_feed_chunks, parser_feed_append, ih]

/-- C7: in every state the dispatcher reaches from its initial state, under
either policy, at most one Command is in flight, and every Command written
to the transport other than the Commands in flight has been resolved; a
Command submitted while one is pending leaves the pending Command and what
was written to the transport as they were, and is itself either appended to
the queue or reported as refused. -/
theorem dispatcher_single_in_flight (policy : BusyPolicy) (inputs : List DispatcherInput)
    (c : Command) :
    (dispatcher_run policy dispatcher_init inputs).in_flight.length ≤ 1 ∧
      (dispatcher_run policy dispatcher_init inputs).wire.length =
        dispatcher_resolved (dispatcher_run policy dispatcher_init inputs) +
          (dispatcher_run policy dispatcher_init inputs).in_flight.length ∧
      ((dispatcher_run policy dispatcher_init inputs).in_flight ≠ [] →
        (dispatcher_submit policy (dispatcher_run policy dispatcher_init inputs) c).in_flight =
            (dispatcher_run policy dispatcher_init inputs).in_flight ∧
          (dispatcher_submit policy (dispatcher_run policy dispatcher_init inputs) c).wire =
            (dispatcher_run policy dispatcher_init inputs).wire ∧
          ((dispatcher_submit policy (dispatcher_run policy dispatcher_init inputs) c).waiting =
              (dispatcher_run policy dispatcher_init inputs).waiting ++ [c] ∨
            (dispatcher_submit policy (dispatcher_run policy dispatcher_init inputs) c).outcomes =
              (dispatcher_run policy dispatcher_init inputs).outcomes ++ [(c, Outcome.busy)])) := by
  refine ⟨dispatcher_run_in_flight policy dispatcher_init inputs (by simp [dispatcher_init]),
    dispatcher_run_wire policy dispatcher_init inputs (by decide), ?_⟩
  intro hne
  generalize dispatcher_run policy dispatcher_init inputs = d at hne
  unfold dispatcher_submit
  cases hd : d.in_flight with
  | nil => exact absurd hd hne
  | cons p rest =>
    cases policy
    · simp [hd]
    · simp [hd]

/-- Witness of C7: under the queueing policy, after one Command was submitted
a second one is queued, nothing more is written to the transport, and one
Command is in flight. -/
theorem dispatcher_single_in_flight_witness :
    (dispatcher_run BusyPolicy.queue dispatcher_init
        [DispatcherInput.submit (status_command [65, 84] 100)]).in_flight.length ≤ 1 ∧
      (dispatcher_submit BusyPolicy.queue
        (dispatcher_run BusyPolicy.queue dispatcher_init
          [DispatcherInput.submit (status_command [65, 84] 100)])
        (status_command [65, 84, 69] 100)).wire = [[65, 84]] ∧
      (dispatcher_submit BusyPolicy.queue
        (dispatcher_run BusyPolicy.queue dispatcher_init
          [DispatcherInput.submit (status_command [65, 84] 100)])
        (status_command [65, 84, 69] 100)).waiting = [status_command [65, 84, 69] 100] :=
  ⟨(dispatcher_single_in_flight BusyPolicy.queue
      [DispatcherInput.submit (status_command [65, 84] 100)]
      (status_command [65, 84, 69] 100)).1, by decide, by decide⟩

end LwESP
